import Mathlib

/-!
Verification of the BSON formatting/parsing core of mongo-express
(`src/lib/bson.js`). The module converts BSON document values to
MongoDB-shell literal strings and wraps an external free-text parser
with error handling. External collaborators (the `mongodb` driver's
value classes, `mongodb-query-parser`, `javascript-stringify`) are not
part of the repository: where a claim depends on them they are either
taken as parameters of the embedded functions or modelled from the
specification, as flagged in the doc comments below.
-/

namespace MongoExpressBson

/-- Shallow embedding of the runtime values that reach `src/lib/bson.js`:
JS primitives, plain arrays and objects, and the BSON driver's
extended-type instances (JS objects carrying a `_bsontype` marker set by
the driver's constructors).  Numbers are modelled as integers (no claim
involves floating point); `vDouble`/`vDecimal128` carry the string their
driver `toString()` produces; `vDate` carries the result of
`toISOString()` (`none` when that call throws, i.e. an invalid date)
plus the default `toString()` text; `vCode`'s scope carries its plain
JSON serialization; `vOther` covers values whose internal class is
outside the module's fixed lookup table (e.g. a Symbol). -/
inductive BValue where
  | vString (s : String)
  | vNumber (n : Int)
  | vBool (b : Bool)
  | vNull
  | vUndefined
  | vArray (xs : List BValue)
  | vObject (fields : List (String × BValue)) (bsontype : Option String)
  | vDate (iso : Option String) (text : String)
  | vRegExp (source : String) (g ic ml : Bool)
  | vObjectId (hex : String)
  | vLong (n : Int)
  | vInt32 (n : Int)
  | vDouble (s : String)
  | vDecimal128 (s : String)
  | vBinary (sub_type : Nat) (buffer : List Nat)
  | vCode (code : String) (scopeJson : Option String)
  | vDBRef (ns : String) (oidHex : String) (db : Option String)
  | vTimestamp (high low : Int)
  | vMaxKey
  | vMinKey
  | vOther (tag : String)

/-- The result of `Object.prototype.toString.call(value)` for each embedded
value.  Every BSON driver instance is a plain object at this level, hence
`"[object Object]"`. -/
def toStringTagOf : BValue → String
  | .vString _ => "[object String]"
  | .vNumber _ => "[object Number]"
  | .vBool _ => "[object Boolean]"
  | .vNull => "[object Null]"
  | .vUndefined => "[object Undefined]"
  | .vArray _ => "[object Array]"
  | .vObject _ _ => "[object Object]"
  | .vDate _ _ => "[object Date]"
  | .vRegExp _ _ _ _ => "[object RegExp]"
  | .vObjectId _ => "[object Object]"
  | .vLong _ => "[object Object]"
  | .vInt32 _ => "[object Object]"
  | .vDouble _ => "[object Object]"
  | .vDecimal128 _ => "[object Object]"
  | .vBinary _ _ => "[object Object]"
  | .vCode _ _ => "[object Object]"
  | .vDBRef _ _ _ => "[object Object]"
  | .vTimestamp _ _ => "[object Object]"
  | .vMaxKey => "[object Object]"
  | .vMinKey => "[object Object]"
  | .vOther tag => tag

/-- The `_bsontype` attribute of each embedded value (`none` = attribute
absent / `undefined`).  Driver instances carry the marker their
constructor sets; a plain object carries whatever its `bsontype` field
says (normally `none`). -/
def bsontypeOf : BValue → Option String
  | .vObject _ b => b
  | .vObjectId _ => some "ObjectId"
  | .vLong _ => some "Long"
  | .vInt32 _ => some "Int32"
  | .vDouble _ => some "Double"
  | .vDecimal128 _ => some "Decimal128"
  | .vBinary _ _ => some "Binary"
  | .vCode _ _ => some "Code"
  | .vDBRef _ _ _ => some "DBRef"
  | .vTimestamp _ _ => some "Timestamp"
  | .vMaxKey => some "MaxKey"
  | .vMinKey => some "MinKey"
  | _ => none

/-- src/lib/bson.js lines 41-52: the fixed
`[Object.prototype.toString.call(value), type name]` lookup table. -/
def TYPE_FOR_TO_STRING : List (String × String) :=
  [("[object Array]", "Array"),
   ("[object Object]", "Object"),
   ("[object String]", "String"),
   ("[object Date]", "Date"),
   ("[object Number]", "Number"),
   ("[object Function]", "Function"),
   ("[object RegExp]", "RegExp"),
   ("[object Boolean]", "Boolean"),
   ("[object Null]", "Null"),
   ("[object Undefined]", "Undefined")]

/-- src/lib/bson.js lines 54-56: `detectType`.  `Map.get` returns
`undefined` for a missing key, modelled as `none`. -/
def detectType (value : BValue) : Option String :=
  List.lookup (toStringTagOf value) TYPE_FOR_TO_STRING

/-- JS truthiness of the `_bsontype` attribute value: `undefined` and the
empty string are falsy, any other string is truthy. -/
def jsTruthy : Option String → Bool
  | none => false
  | some s => !(s == "")

/-- The descriptor returned by `getTypeDescriptorForValue`:
`type` is `none` when the JS value would be `undefined`. -/
structure TypeDescriptor where
  type : Option String
  isBSON : Bool
deriving DecidableEq, Repr

/-- src/lib/bson.js lines 58-65: `getTypeDescriptorForValue`.
`const _bsontype = t === 'Object' && value._bsontype` yields a falsy
value unless `t` is `"Object"` and the attribute is truthy; then
`type: _bsontype || t` and `isBSON: !!_bsontype`. -/
def getTypeDescriptorForValue (value : BValue) : TypeDescriptor :=
  let t := detectType value
  let b : Option String := if t = some "Object" then bsontypeOf value else none
  { type := if jsTruthy b then b else t
    isBSON := jsTruthy b }

/-! ### Decimal and hexadecimal rendering helpers (JS number/`toString` semantics) -/

/-- The character for a decimal digit (`0 ≤ d ≤ 9`). -/
def digitChar (d : Nat) : Char :=
  if d = 0 then '0' else if d = 1 then '1' else if d = 2 then '2'
  else if d = 3 then '3' else if d = 4 then '4' else if d = 5 then '5'
  else if d = 6 then '6' else if d = 7 then '7' else if d = 8 then '8' else '9'

/-- Decimal digits of a natural number, most significant first. -/
def natToDigits (n : Nat) : List Char :=
  if n < 10 then [digitChar n]
  else natToDigits (n / 10) ++ [digitChar (n % 10)]
decreasing_by exact Nat.div_lt_self (by omega) (by omega)

/-- Decimal string of a natural number. -/
def natToStr (n : Nat) : String :=
  String.mk (natToDigits n)

/-- Decimal string of an integer, as JS `toString()` renders integral
values (`-` sign followed by the digits). -/
def intToStr (n : Int) : String :=
  if n < 0 then "-" ++ natToStr n.natAbs else natToStr n.natAbs

/-- Lowercase hexadecimal digit character (`0 ≤ d ≤ 15`). -/
def hexChar (d : Nat) : Char :=
  if d < 10 then digitChar d
  else if d = 10 then 'a' else if d = 11 then 'b' else if d = 12 then 'c'
  else if d = 13 then 'd' else if d = 14 then 'e' else 'f'

/-- Hex digits of a natural number, most significant first: JS
`Number.prototype.toString(16)` for a nonnegative integer — lowercase,
no padding. -/
def natToHexDigits (n : Nat) : List Char :=
  if n < 16 then [hexChar n]
  else natToHexDigits (n / 16) ++ [hexChar (n % 16)]
decreasing_by exact Nat.div_lt_self (by omega) (by omega)

/-- JS `n.toString(16)` for a nonnegative integer. -/
def natToHexStr (n : Nat) : String :=
  String.mk (natToHexDigits n)

/-- Two lowercase hex digits of one byte, as `Buffer.toString('hex')`
renders each byte. -/
def byteToHex (b : Nat) : List Char :=
  [hexChar ((b / 16) % 16), hexChar (b % 16)]

/-- `Buffer.prototype.toString('hex')`: lowercase hex, two digits per byte. -/
def bufToHex (l : List Nat) : String :=
  String.mk (l.flatMap byteToHex)

/-- Character of one 6-bit group in the standard base64 alphabet. -/
def b64Char (n : Nat) : Char :=
  if n < 26 then Char.ofNat (65 + n)
  else if n < 52 then Char.ofNat (97 + (n - 26))
  else if n < 62 then Char.ofNat (48 + (n - 52))
  else if n = 62 then '+' else '/'

/-- `Buffer.prototype.toString('base64')`: standard base64 with `=`
padding, 3 bytes per 4 output characters. -/
def bufToBase64Chars : List Nat → List Char
  | [] => []
  | [a] => [b64Char ((a / 4) % 64), b64Char ((a % 4) * 16), '=', '=']
  | [a, b] => [b64Char ((a / 4) % 64), b64Char ((a % 4) * 16 + (b / 16) % 16),
               b64Char ((b % 16) * 4), '=']
  | a :: b :: c :: rest =>
    b64Char ((a / 4) % 64) :: b64Char ((a % 4) * 16 + (b / 16) % 16) ::
    b64Char ((b % 16) * 4 + (c / 64) % 4) :: b64Char (c % 64) ::
    bufToBase64Chars rest

/-- `Buffer.prototype.toString('base64')` as a string. -/
def bufToBase64 (l : List Nat) : String :=
  String.mk (bufToBase64Chars l)

/-- One character of `JSON.stringify` string escaping. -/
def jsonEscapeChar (c : Char) : String :=
  if c = '"' then "\\\"" else if c = '\\' then "\\\\"
  else if c = '\n' then "\\n" else if c = '\r' then "\\r"
  else if c = '\t' then "\\t" else if c = '\x08' then "\\b"
  else if c = '\x0c' then "\\f"
  else if c.toNat < 32 then "\\u00" ++ String.mk (byteToHex c.toNat)
  else String.mk [c]

/-- `JSON.stringify` applied to a string: double quotes around the
escaped characters. -/
def jsonQuote (s : String) : String :=
  "\"" ++ String.join (s.data.map jsonEscapeChar) ++ "\""

/-! ### The per-type formatter table (src/lib/bson.js lines 67-156)

Each entry translates one property of `BSON_TO_JS_STRING`.  The `Binary`
entry calls the driver's `v.toUUID().toString()`, an external function
that may throw; it is passed in as `uconv : List Nat → Option String`
(`some` = the canonical UUID string it returns, `none` = it threw). -/

/-- Lines 68-73: `Code('<code>')`, with the scope's plain-JSON rendering
appended when a scope is present (`if (v.scope)`). -/
def fmtCode : BValue → String
  | .vCode code scopeJson =>
    match scopeJson with
    | some sj => "Code('" ++ code ++ "'," ++ sj ++ ")"
    | none => "Code('" ++ code ++ "')"
  | _ => ""

/-- Lines 74-79: both the `ObjectID` and `ObjectId` entries render
`ObjectId('<hex>')` from `v.toString('hex')` (the stored 24-char hex). -/
def fmtObjectId : BValue → String
  | .vObjectId hex => "ObjectId('" ++ hex ++ "')"
  | _ => ""

/-- Lines 80-98: the `Binary` entry.  Subtype 4 with a 16-byte buffer
renders `UUID('...')` from `v.toUUID().toString()`, falling back to the
raw hex of the buffer when that conversion throws; every other
subtype/length renders `BinData(<subtype as lowercase hex>, '<base64>')`. -/
def fmtBinary (uconv : List Nat → Option String) : BValue → String
  | .vBinary subType buffer =>
    if subType == 4 && buffer.length == 16 then
      match uconv buffer with
      | some uuidHex => "UUID('" ++ uuidHex ++ "')"
      | none => "UUID('" ++ bufToHex buffer ++ "')"
    else
      "BinData(" ++ natToHexStr subType ++ ", '" ++ bufToBase64 buffer ++ "')"
  | _ => ""

/-- Lines 99-105: `DBRef(ns, ObjectId(oid))`, with a trailing db argument
when `v.db` is truthy (JS: the empty string is falsy). -/
def fmtDBRef : BValue → String
  | .vDBRef ns oidHex db =>
    if jsTruthy db then
      "DBRef('" ++ ns ++ "', ObjectId('" ++ oidHex ++ "'), '" ++ db.getD "" ++ "')"
    else
      "DBRef('" ++ ns ++ "', ObjectId('" ++ oidHex ++ "'))"
  | _ => ""

/-- Lines 106-108: `Timestamp({ t: <high>, i: <low> })`. -/
def fmtTimestamp : BValue → String
  | .vTimestamp high low =>
    "Timestamp(\x7b t: " ++ intToStr high ++ ", i: " ++ intToStr low ++ " \x7d)"
  | _ => ""

/-- Lines 109-111: `NumberLong(<decimal>)`. -/
def fmtLong : BValue → String
  | .vLong n => "NumberLong(" ++ intToStr n ++ ")"
  | _ => ""

/-- Lines 112-114: `NumberDecimal('<decimal string>')`. -/
def fmtDecimal128 : BValue → String
  | .vDecimal128 s => "NumberDecimal('" ++ s ++ "')"
  | _ => ""

/-- Lines 115-117: `Double('<string>')`. -/
def fmtDouble : BValue → String
  | .vDouble s => "Double('" ++ s ++ "')"
  | _ => ""

/-- Lines 118-120: `NumberInt('<string>')`. -/
def fmtInt32 : BValue → String
  | .vInt32 n => "NumberInt('" ++ intToStr n ++ "')"
  | _ => ""

/-- Lines 121-123: literal `MaxKey()`. -/
def fmtMaxKey : BValue → String := fun _ => "MaxKey()"

/-- Lines 124-126: literal `MinKey()`. -/
def fmtMinKey : BValue → String := fun _ => "MinKey()"

/-- Lines 130-136: `ISODate('<toISOString()>')`, falling back to the
default `toString()` text when `toISOString` throws (invalid date). -/
def fmtISODate : BValue → String
  | .vDate iso text =>
    match iso with
    | some s => "ISODate('" ++ s ++ "')"
    | none => "ISODate('" ++ text ++ "')"
  | _ => ""

/-- Lines 127-129: the `Date` entry delegates to `ISODate`. -/
def fmtDate : BValue → String := fmtISODate

/-- Lines 137-155: the `RegExp` entry.  An options string `o` is built by
appending `'g'`, `'i'`, `'m'` in that order for the set flags, and the
second argument is emitted only when at least one flag was set. -/
def fmtRegExp : BValue → String
  | .vRegExp source g ic ml =>
    let o := ""
    let p1 : String × Bool := if g then (o ++ "g", true) else (o, false)
    let p2 : String × Bool := if ic then (p1.1 ++ "i", true) else p1
    let p3 : String × Bool := if ml then (p2.1 ++ "m", true) else p2
    "RegExp(" ++ jsonQuote source ++ (if p3.2 then ", '" ++ p3.1 ++ "'" else "") ++ ")"
  | _ => ""

/-- Lines 67-156: the `BSON_TO_JS_STRING` lookup object, as an
association list from type tag to formatter. -/
def BSON_TO_JS_STRING (uconv : List Nat → Option String) :
    List (String × (BValue → String)) :=
  [("Code", fmtCode),
   ("ObjectID", fmtObjectId),
   ("ObjectId", fmtObjectId),
   ("Binary", fmtBinary uconv),
   ("DBRef", fmtDBRef),
   ("Timestamp", fmtTimestamp),
   ("Long", fmtLong),
   ("Decimal128", fmtDecimal128),
   ("Double", fmtDouble),
   ("Int32", fmtInt32),
   ("MaxKey", fmtMaxKey),
   ("MinKey", fmtMinKey),
   ("Date", fmtDate),
   ("ISODate", fmtISODate),
   ("RegExp", fmtRegExp)]

/-- `BSON_TO_JS_STRING[t.type]`: property access with a possibly
`undefined` key — `undefined` indexes nothing, any unknown tag yields
`undefined` (`none`), never an exception. -/
def lookupFormatter (uconv : List Nat → Option String) :
    Option String → Option (BValue → String)
  | none => none
  | some tag => List.lookup tag (BSON_TO_JS_STRING uconv)

/-- src/lib/bson.js lines 162-169: the callback `toJSString` hands to the
external `javascript-stringify`.  `stringifyCb` is the library's generic
structural stringifier for the visited node: the callback uses it
whenever the descriptor's tag has no formatter. -/
def toJSStringCallback (uconv : List Nat → Option String)
    (stringifyCb : BValue → String) (value : BValue) : String :=
  let t := getTypeDescriptorForValue value
  match lookupFormatter uconv t.type with
  | none => stringifyCb value
  | some toJs => toJs value

/-- A string of `n` spaces (indentation). -/
def indentStr (n : Nat) : String :=
  String.mk (List.replicate n ' ')

/-- Join a list of strings with a separator. -/
def joinSep (sep : String) : List String → String
  | [] => ""
  | [x] => x
  | x :: y :: xs => x ++ sep ++ joinSep sep (y :: xs)

/-- One visit of the external stringifier at a node: the source's
callback logic — the formatter for the descriptor's tag when one exists,
else the generic structural rendering (passed in, already composed). -/
def renderStep (v : BValue) (uconv : List Nat → Option String)
    (generic : String) : String :=
  match lookupFormatter uconv (getTypeDescriptorForValue v).type with
  | some toJs => toJs v
  | none => generic

mutual

/-- Modelled from the spec: the recursion of the external
`javascript-stringify` library (not part of this repository) applied to
the source's callback, §4.3 of the spec.  At every node the callback is
consulted first (formatter hit = leaf, emitted verbatim); otherwise
objects render as `{ key: value, ... }` and arrays as `[value, ...]`
across lines indented by `ind` spaces per depth, keys in insertion
order, primitives as their literal form. -/
def renderValue (uconv : List Nat → Option String) (ind depth : Nat) :
    BValue → String
  | BValue.vString s => renderStep (BValue.vString s) uconv ("'" ++ s ++ "'")
  | BValue.vNumber n => renderStep (BValue.vNumber n) uconv (intToStr n)
  | BValue.vBool b =>
    renderStep (BValue.vBool b) uconv (if b then "true" else "false")
  | BValue.vNull => renderStep BValue.vNull uconv "null"
  | BValue.vUndefined => renderStep BValue.vUndefined uconv "undefined"
  | BValue.vArray [] => renderStep (BValue.vArray []) uconv "[]"
  | BValue.vArray (x :: xs) =>
    renderStep (BValue.vArray (x :: xs)) uconv
      ("[\n" ++ joinSep ",\n" (renderItems uconv ind (depth + 1) (x :: xs)) ++
        "\n" ++ indentStr (ind * depth) ++ "]")
  | BValue.vObject [] b => renderStep (BValue.vObject [] b) uconv "\x7b\x7d"
  | BValue.vObject (f :: fs) b =>
    renderStep (BValue.vObject (f :: fs) b) uconv
      ("\x7b\n" ++ joinSep ",\n" (renderProps uconv ind (depth + 1) (f :: fs)) ++
        "\n" ++ indentStr (ind * depth) ++ "\x7d")
  | BValue.vDate iso text => renderStep (BValue.vDate iso text) uconv ""
  | BValue.vRegExp source g ic ml =>
    renderStep (BValue.vRegExp source g ic ml) uconv ""
  | BValue.vObjectId hex => renderStep (BValue.vObjectId hex) uconv ""
  | BValue.vLong n => renderStep (BValue.vLong n) uconv ""
  | BValue.vInt32 n => renderStep (BValue.vInt32 n) uconv ""
  | BValue.vDouble s => renderStep (BValue.vDouble s) uconv ""
  | BValue.vDecimal128 s => renderStep (BValue.vDecimal128 s) uconv ""
  | BValue.vBinary st buf => renderStep (BValue.vBinary st buf) uconv ""
  | BValue.vCode c sj => renderStep (BValue.vCode c sj) uconv ""
  | BValue.vDBRef ns oid db => renderStep (BValue.vDBRef ns oid db) uconv ""
  | BValue.vTimestamp hi lo => renderStep (BValue.vTimestamp hi lo) uconv ""
  | BValue.vMaxKey => renderStep BValue.vMaxKey uconv ""
  | BValue.vMinKey => renderStep BValue.vMinKey uconv ""
  | BValue.vOther tag => renderStep (BValue.vOther tag) uconv ""

/-- Modelled from the spec: rendering of the elements of an array, one
indented line each. -/
def renderItems (uconv : List Nat → Option String) (ind depth : Nat) :
    List BValue → List String
  | [] => []
  | x :: xs =>
    (indentStr (ind * depth) ++ renderValue uconv ind depth x) ::
    renderItems uconv ind depth xs

/-- Modelled from the spec: rendering of the properties of an object, one
`key: value` line each, insertion order preserved. -/
def renderProps (uconv : List Nat → Option String) (ind depth : Nat) :
    List (String × BValue) → List String
  | [] => []
  | (k, x) :: xs =>
    (indentStr (ind * depth) ++ k ++ ": " ++ renderValue uconv ind depth x) ::
    renderProps uconv ind depth xs

end

/-- src/lib/bson.js lines 159-172: `toJSString(obj, ind = 2)` — the
external structural stringifier driven by the source's callback. -/
def toJSString (uconv : List Nat → Option String) (obj : BValue)
    (ind : Nat) : String :=
  renderValue uconv ind 0 obj

/-- src/lib/bson.js lines 29-31: `toString(doc)` delegates to
`toJSString` with a four-space indent. -/
def toString (uconv : List Nat → Option String) (doc : BValue) : String :=
  toJSString uconv doc 4

/-! ### The deprecated compact `stringify` (src/lib/bson.js lines 180-184)

`toJSString(obj, 1)?.replace(/ ?\n ? ?/g, '').replace(/ {2,}/g, ' ')`. -/

/-- The first replace, `/ ?\n ? ?/g` → `''`: a left-to-right scan deleting
each newline together with an optional single preceding space and up to
two following spaces (the regex engine's greedy leftmost match). -/
def remNl : List Char → List Char
  | ' ' :: '\n' :: ' ' :: ' ' :: rest => remNl rest
  | ' ' :: '\n' :: ' ' :: rest => remNl rest
  | ' ' :: '\n' :: rest => remNl rest
  | '\n' :: ' ' :: ' ' :: rest => remNl rest
  | '\n' :: ' ' :: rest => remNl rest
  | '\n' :: rest => remNl rest
  | c :: rest => c :: remNl rest
  | [] => []

/-- The second replace, `/ {2,}/g` → `' '`, as a run automaton: the flag
records whether the scan is inside a space run whose single output space
has already been emitted. -/
def collapseRun : Bool → List Char → List Char
  | _, [] => []
  | true, ' ' :: rest => collapseRun true rest
  | false, ' ' :: rest => ' ' :: collapseRun true rest
  | _, c :: rest => c :: collapseRun false rest

/-- `/ {2,}/g` → `' '`: every maximal run of spaces becomes one space
(runs of length one are already one space). -/
def collapse2 (l : List Char) : List Char :=
  collapseRun false l

/-- src/lib/bson.js lines 180-184: the deprecated `stringify`, the
1-space-indent rendering post-processed by the two regex replaces. -/
def stringify (uconv : List Nat → Option String) (obj : BValue) : String :=
  String.mk (collapse2 (remNl (toJSString uconv obj 1).data))

/-- Run automaton for `collapseWhitespaceAsSpec`. -/
def collapseWsRun : Bool → List Char → List Char
  | _, [] => []
  | inRun, c :: rest =>
    if c = ' ' ∨ c = '\n' then
      if inRun then collapseWsRun true rest else ' ' :: collapseWsRun true rest
    else c :: collapseWsRun false rest

/-- The behaviour the spec sentence for C8 describes, stated in the
spec's words for comparison with the source's post-processing: every
maximal run of generated whitespace (spaces and newlines) collapsed down
to a single space. -/
def collapseWhitespaceAsSpec (s : String) : String :=
  String.mk (collapseWsRun false s.data)

/-- No two adjacent spaces occur in the character list. -/
def noDoubleSpace : List Char → Bool
  | ' ' :: ' ' :: _ => false
  | _ :: rest => noDoubleSpace rest
  | [] => true

/-! ### The parse side (src/lib/bson.js lines 7-26)

The free-text parser (`mongodb-query-parser`) is an external package the
spec treats as an opaque collaborator that may throw; it is passed in as
`p : String → Except String BValue` (`Except.error` = it threw). -/

/-- Line 7: `toBSON = parser`, the raw re-export of the external parser. -/
def toBSON (p : String → Except String BValue) : String → Except String BValue :=
  p

/-- Lines 12-19: `toSafeBSON` — the parser's value on success; on a
thrown error the error is logged (second component) and `null` (`none`)
is returned. -/
def toSafeBSON (p : String → Except String BValue) (s : String) :
    Option BValue × List String :=
  match toBSON p s with
  | Except.ok v => (some v, [])
  | Except.error e => (none, [e])

/-- One character of the class `[\da-f]` under the `i` flag: a decimal
digit or a hex letter of either case. -/
def isHexChar (c : Char) : Bool :=
  ('0' ≤ c && c ≤ '9') || ('a' ≤ c && c ≤ 'f') || ('A' ≤ c && c ≤ 'F')

/-- The test `/^[\da-f]{24}$/i.test(string)`: exactly 24 characters, all
hexadecimal. -/
def isHex24 (s : String) : Bool :=
  s.data.length == 24 && s.data.all isHexChar

/-- Lines 21-26: `parseObjectId` — a 24-hex-character input constructs an
ObjectId directly (`new ObjectId(string)`, which cannot throw for such
input); every other input is handed to the general parser unmodified,
whose exceptions propagate. -/
def parseObjectId (p : String → Except String BValue) (s : String) :
    Except String BValue :=
  if isHex24 s then Except.ok (BValue.vObjectId s) else toBSON p s

/-! ### Decimal parsing helpers, for the spec-modelled round-trip parser -/

/-- The numeric value of a decimal digit character, `none` otherwise. -/
def digitVal (c : Char) : Option Nat :=
  if '0' ≤ c ∧ c ≤ '9' then some (c.toNat - 48) else none

/-- Accumulating decimal reader: fails on the first non-digit. -/
def parseNatGo (acc : Nat) : List Char → Option Nat
  | [] => some acc
  | c :: cs =>
    match digitVal c with
    | some d => parseNatGo (10 * acc + d) cs
    | none => none

/-- Decimal natural-number literal: nonempty all-digit character list. -/
def parseNatL : List Char → Option Nat
  | [] => none
  | l => parseNatGo 0 l

/-- Decimal integer literal with optional leading minus sign. -/
def parseIntL (l : List Char) : Option Int :=
  match l with
  | [] => none
  | c :: cs =>
    if c = '-' then (parseNatL cs).map (fun n => -(n : Int))
    else (parseNatL (c :: cs)).map (fun n => (n : Int))

/-- Decimal integer literal of a string. -/
def parseIntStr (s : String) : Option Int :=
  parseIntL s.data

/-- Strip a fixed prefix and suffix from a character list, by position:
`some` of the middle when the list carries both and is long enough. -/
def stripWrapL (pre suf s : List Char) : Option (List Char) :=
  if pre <+: s ∧ suf <:+ s ∧ pre.length + suf.length ≤ s.length then
    some ((s.drop pre.length).take (s.length - (pre.length + suf.length)))
  else none

/-- Strip a fixed prefix and suffix from a string. -/
def stripWrap (pre suf s : String) : Option String :=
  (stripWrapL pre.data suf.data s.data).map String.mk

/-- Modelled from the spec: the external free-text parser
(`mongodb-query-parser`, not code of this repository; §4.4 and §6 treat
it as an opaque collaborator that may throw on malformed input).  For
the round-trip property it is modelled on the shell literal grammar of
§4.2 for the representable leaf types the claim names:
`NumberLong(<decimal>)`, `ObjectId('<24 hex chars>')` and
`NumberInt('<decimal>')`; any other input throws. -/
def parserModel (s : String) : Except String BValue :=
  match stripWrap "NumberLong(" ")" s with
  | some mid =>
    match parseIntStr mid with
    | some n => Except.ok (BValue.vLong n)
    | none => Except.error "SyntaxError: invalid NumberLong"
  | none =>
  match stripWrap "ObjectId('" "')" s with
  | some mid =>
    if isHex24 mid then Except.ok (BValue.vObjectId mid)
    else Except.error "SyntaxError: invalid ObjectId"
  | none =>
  match stripWrap "NumberInt('" "')" s with
  | some mid =>
    match parseIntStr mid with
    | some n => Except.ok (BValue.vInt32 n)
    | none => Except.error "SyntaxError: invalid NumberInt"
  | none => Except.error "SyntaxError: unsupported literal"

/-! ## Theorems -/

/-! ### Decimal round-trip helper lemmas -/

theorem stringMk_data (s : String) : String.mk s.data = s := rfl

theorem digitVal_digitChar (d : Nat) (h : d < 10) :
    digitVal (digitChar d) = some d := by
  interval_cases d <;> decide

theorem parseNatGo_append (l₁ : List Char) :
    ∀ (a b : Nat) (l₂ : List Char), parseNatGo a l₁ = some b →
      parseNatGo a (l₁ ++ l₂) = parseNatGo b l₂ := by
  induction l₁ with
  | nil => intro a b l₂ h; simp [parseNatGo] at h; simp [h]
  | cons c cs ih =>
    intro a b l₂ h
    simp only [parseNatGo, List.cons_append] at h ⊢
    cases hd : digitVal c with
    | none => simp [hd] at h
    | some d =>
      simp only [hd] at h ⊢
      exact ih _ _ _ h

theorem natToDigits_length_pos (n : Nat) : 0 < (natToDigits n).length := by
  rw [natToDigits]
  split <;> simp

theorem parseNatGo_natToDigits (n : Nat) :
    ∀ a : Nat, parseNatGo a (natToDigits n) =
      some (a * 10 ^ (natToDigits n).length + n) := by
  induction n using Nat.strong_induction_on with
  | _ n ih =>
    intro a
    rw [natToDigits]
    by_cases h : n < 10
    · rw [if_pos h]
      simp [parseNatGo, digitVal_digitChar n h]
      omega
    · rw [if_neg h]
      have hdiv : n / 10 < n := Nat.div_lt_self (by omega) (by omega)
      have h1 := ih (n / 10) hdiv (a := a)
      have h2 := parseNatGo_append (natToDigits (n / 10)) a _
        [digitChar (n % 10)] h1
      rw [h2]
      have hm : n % 10 < 10 := Nat.mod_lt _ (by omega)
      simp [parseNatGo, digitVal_digitChar _ hm, List.length_append]
      generalize hM : a * 10 ^ (natToDigits (n / 10)).length = M
      rw [pow_succ, ← Nat.mul_assoc, hM]
      omega

theorem parseNatL_natToDigits (n : Nat) :
    parseNatL (natToDigits n) = some n := by
  have hne : natToDigits n ≠ [] := by
    have := natToDigits_length_pos n
    intro hc; rw [hc] at this; simp at this
  obtain ⟨c, cs, hl⟩ : ∃ c cs, natToDigits n = c :: cs := by
    cases hcc : natToDigits n with
    | nil => exact absurd hcc hne
    | cons c cs => exact ⟨c, cs, rfl⟩
  have := parseNatGo_natToDigits n 0
  rw [hl] at this ⊢
  simpa [parseNatL] using this

theorem parseIntL_of_parseNatL (l : List Char) (m : Nat)
    (h : parseNatL l = some m) : parseIntL l = some (m : Int) := by
  cases l with
  | nil => simp [parseNatL] at h
  | cons c cs =>
    by_cases hc : c = '-'
    · exfalso
      subst hc
      simp [parseNatL, parseNatGo, digitVal] at h
    · simp [parseIntL, hc, h]

theorem parseIntStr_intToStr (n : Int) : parseIntStr (intToStr n) = some n := by
  by_cases h : n < 0
  · have hdata : (intToStr n).data = '-' :: natToDigits n.natAbs := by
      simp [intToStr, if_pos h, natToStr]
    rw [parseIntStr, hdata]
    simp [parseIntL, parseNatL_natToDigits n.natAbs]
    rw [abs_of_neg h, neg_neg]
  · have hdata : (intToStr n).data = natToDigits n.natAbs := by
      simp [intToStr, if_neg h, natToStr]
    rw [parseIntStr, hdata]
    rw [parseIntL_of_parseNatL _ _ (parseNatL_natToDigits n.natAbs)]
    congr 1
    omega

/-! ### stripWrap helper lemmas -/

theorem stripWrapL_append (pre mid suf : List Char) :
    stripWrapL pre suf (pre ++ mid ++ suf) = some mid := by
  have hp : pre <+: pre ++ mid ++ suf := by
    rw [List.append_assoc]; exact List.prefix_append _ _
  have hs : suf <:+ pre ++ mid ++ suf := List.suffix_append _ _
  have hl : pre.length + suf.length ≤ (pre ++ mid ++ suf).length := by
    simp only [List.length_append]; omega
  rw [stripWrapL, if_pos ⟨hp, hs, hl⟩]
  congr 1
  rw [List.append_assoc, List.drop_left]
  have hm : (pre ++ (mid ++ suf)).length - (pre.length + suf.length) =
      mid.length := by
    simp only [List.length_append]; omega
  rw [hm]
  exact List.take_left _ _

theorem stripWrap_append (pre mid suf : String) :
    stripWrap pre suf (pre ++ mid ++ suf) = some mid := by
  rw [stripWrap]
  have hd : (pre ++ mid ++ suf).data = pre.data ++ mid.data ++ suf.data := by
    simp [String.data_append]
  rw [hd, stripWrapL_append]
  simp [stringMk_data]

theorem stripWrap_none_of_not_prefix (pre suf s : String)
    (h : ¬ (pre.data <+: s.data)) : stripWrap pre suf s = none := by
  rw [stripWrap, stripWrapL, if_neg]
  · rfl
  · rintro ⟨h1, -, -⟩
    exact h h1

theorem stripWrap_NumberLong_ObjectId (h : String) :
    stripWrap "NumberLong(" ")" ("ObjectId('" ++ h ++ "')") = none := by
  refine stripWrap_none_of_not_prefix _ _ _ ?_
  intro hp
  have e1 : "NumberLong(".data = 'N' :: "umberLong(".data := rfl
  have e2 : ("ObjectId('" ++ h ++ "')").data =
      'O' :: ("bjectId('".data ++ h.data ++ "')".data) := rfl
  rw [e1, e2, List.cons_prefix_cons] at hp
  exact absurd hp.1 (by decide)

theorem stripWrap_NumberLong_NumberInt (m : String) :
    stripWrap "NumberLong(" ")" ("NumberInt('" ++ m ++ "')") = none := by
  refine stripWrap_none_of_not_prefix _ _ _ ?_
  intro hp
  have e1 : "NumberLong(".data =
      'N' :: 'u' :: 'm' :: 'b' :: 'e' :: 'r' :: 'L' :: "ong(".data := rfl
  have e2 : ("NumberInt('" ++ m ++ "')").data =
      'N' :: 'u' :: 'm' :: 'b' :: 'e' :: 'r' :: 'I' ::
        ("nt('".data ++ m.data ++ "')".data) := rfl
  rw [e1, e2] at hp
  simp only [List.cons_prefix_cons] at hp
  exact absurd hp.2.2.2.2.2.2.1 (by decide)

theorem stripWrap_ObjectId_NumberInt (m : String) :
    stripWrap "ObjectId('" "')" ("NumberInt('" ++ m ++ "')") = none := by
  refine stripWrap_none_of_not_prefix _ _ _ ?_
  intro hp
  have e1 : "ObjectId('".data = 'O' :: "bjectId('".data := rfl
  have e2 : ("NumberInt('" ++ m ++ "')").data =
      'N' :: ("umberInt('".data ++ m.data ++ "')".data) := rfl
  rw [e1, e2, List.cons_prefix_cons] at hp
  exact absurd hp.1 (by decide)

/-! ### Evaluation of the spec-modelled parser on the formatted leaves -/

theorem parserModel_NumberLong (n : Int) :
    parserModel ("NumberLong(" ++ intToStr n ++ ")") =
      Except.ok (BValue.vLong n) := by
  rw [parserModel, stripWrap_append]
  simp [parseIntStr_intToStr n]

theorem parserModel_ObjectId (h : String) (hh : isHex24 h = true) :
    parserModel ("ObjectId('" ++ h ++ "')") =
      Except.ok (BValue.vObjectId h) := by
  rw [parserModel, stripWrap_NumberLong_ObjectId, stripWrap_append]
  simp [hh]

theorem parserModel_NumberInt (m : Int) :
    parserModel ("NumberInt('" ++ intToStr m ++ "')") =
      Except.ok (BValue.vInt32 m) := by
  rw [parserModel, stripWrap_NumberLong_NumberInt,
    stripWrap_ObjectId_NumberInt, stripWrap_append]
  simp [parseIntStr_intToStr m]

/-! ### Evaluation of the renderer on formatter-handled leaves -/

theorem renderStep_of_formatter (uconv : List Nat → Option String)
    (v : BValue) (generic : String) (f : BValue → String)
    (hf : lookupFormatter uconv (getTypeDescriptorForValue v).type = some f) :
    renderStep v uconv generic = f v := by
  simp [renderStep, hf]

theorem toJSString_vLong (uconv : List Nat → Option String) (ind : Nat)
    (n : Int) :
    toJSString uconv (BValue.vLong n) ind = "NumberLong(" ++ intToStr n ++ ")" := by
  rw [toJSString]
  rw [show renderValue uconv ind 0 (BValue.vLong n) =
    renderStep (BValue.vLong n) uconv "" from rfl]
  rw [renderStep_of_formatter uconv (BValue.vLong n) "" fmtLong rfl]
  rfl

theorem toJSString_vObjectId (uconv : List Nat → Option String) (ind : Nat)
    (h : String) :
    toJSString uconv (BValue.vObjectId h) ind = "ObjectId('" ++ h ++ "')" := by
  rw [toJSString]
  rw [show renderValue uconv ind 0 (BValue.vObjectId h) =
    renderStep (BValue.vObjectId h) uconv "" from rfl]
  rw [renderStep_of_formatter uconv (BValue.vObjectId h) "" fmtObjectId rfl]
  rfl

theorem toJSString_vInt32 (uconv : List Nat → Option String) (ind : Nat)
    (m : Int) :
    toJSString uconv (BValue.vInt32 m) ind = "NumberInt('" ++ intToStr m ++ "')" := by
  rw [toJSString]
  rw [show renderValue uconv ind 0 (BValue.vInt32 m) =
    renderStep (BValue.vInt32 m) uconv "" from rfl]
  rw [renderStep_of_formatter uconv (BValue.vInt32 m) "" fmtInt32 rfl]
  rfl

/-- C1: For every Binary value: subtype 4 with a 16-byte buffer renders
`UUID('<canonical UUID string>')` when the driver's canonical conversion
succeeds and `UUID('<hex of the bytes>')` when it throws; every other
subtype or length renders `BinData(<subtype as lowercase unpadded hex>,
'<base64 payload>')`.  The formatter is a total function: no input makes
it throw. -/
theorem C1_binary_formatter (uconv : List Nat → Option String)
    (subType : Nat) (buffer : List Nat) :
    (subType = 4 → buffer.length = 16 →
      (∀ u, uconv buffer = some u →
        fmtBinary uconv (BValue.vBinary subType buffer) = "UUID('" ++ u ++ "')") ∧
      (uconv buffer = none →
        fmtBinary uconv (BValue.vBinary subType buffer) =
          "UUID('" ++ bufToHex buffer ++ "')")) ∧
    (¬(subType = 4 ∧ buffer.length = 16) →
      fmtBinary uconv (BValue.vBinary subType buffer) =
        "BinData(" ++ natToHexStr subType ++ ", '" ++ bufToBase64 buffer ++ "')") := by
  constructor
  · intro h4 h16
    constructor
    · intro u hu
      simp [fmtBinary, h4, h16, hu]
    · intro hu
      simp [fmtBinary, h4, h16, hu]
  · intro h
    have hcond : (subType == 4 && buffer.length == 16) = false := by
      rcases Decidable.not_and_iff_or_not.mp h with h' | h' <;> simp [h']
    simp [fmtBinary, hcond]

/-- Witness for C1: all three branches at concrete inputs (a valid
16-byte subtype-4 UUID, a 16-byte subtype-4 binary whose conversion
throws, and a subtype-0 binary). -/
theorem C1_binary_formatter_witness :
    let buf16 : List Nat := [0, 1, 2, 3, 4, 5, 6, 7, 8, 9, 10, 11, 12, 13, 14, 15]
    (fmtBinary (fun _ => some "00010203-0405-0607-0809-0a0b0c0d0e0f")
        (BValue.vBinary 4 buf16) =
      "UUID('" ++ "00010203-0405-0607-0809-0a0b0c0d0e0f" ++ "')") ∧
    (fmtBinary (fun _ => none) (BValue.vBinary 4 buf16) =
      "UUID('" ++ bufToHex buf16 ++ "')") ∧
    (fmtBinary (fun _ => none) (BValue.vBinary 0 [104, 105]) =
      "BinData(" ++ natToHexStr 0 ++ ", '" ++ bufToBase64 [104, 105] ++ "')") := by
  refine ⟨((C1_binary_formatter _ 4 _).1 rfl (by decide)).1 _ rfl,
          ((C1_binary_formatter _ 4 _).1 rfl (by decide)).2 rfl,
          (C1_binary_formatter _ 0 [104, 105]).2 (by decide)⟩

/-- C2: `toSafeBSON` returns the external parser's value when it
succeeds; when the parser throws, the error is logged and `null` is
returned — the exception never propagates (the embedded function is
total). -/
theorem C2_toSafeBSON (p : String → Except String BValue) (s : String) :
    (∀ v, p s = Except.ok v → toSafeBSON p s = (some v, [])) ∧
    (∀ e, p s = Except.error e → toSafeBSON p s = (none, [e])) := by
  constructor <;> intro x h <;> simp [toSafeBSON, toBSON, h]

/-- Witness for C2: a succeeding parser yields its value with no log; a
throwing parser yields `null` plus the logged error. -/
theorem C2_toSafeBSON_witness :
    toSafeBSON (fun _ => Except.ok BValue.vNull) "\x7b a: 1 \x7d" =
      (some BValue.vNull, []) ∧
    toSafeBSON (fun _ => Except.error "SyntaxError: Unexpected token")
        "\x7b not: valid" =
      (none, ["SyntaxError: Unexpected token"]) :=
  ⟨(C2_toSafeBSON _ _).1 BValue.vNull rfl, (C2_toSafeBSON _ _).2 _ rfl⟩

/-- C3: the classifier returns `{type, isBSON}` with: a truthy
`_bsontype` marker on an Object-classified value gives that marker and
`isBSON = true`; otherwise the coarse tag and `isBSON = false`; an
internal class outside the lookup table gives `type = undefined`
(`none`) and `isBSON = false`.  The classifier is a total function —
it never throws. -/
theorem C3_type_classifier (v : BValue) :
    (∀ s, detectType v = some "Object" → bsontypeOf v = some s → s ≠ "" →
      getTypeDescriptorForValue v = { type := some s, isBSON := true }) ∧
    (detectType v ≠ some "Object" ∨ jsTruthy (bsontypeOf v) = false →
      getTypeDescriptorForValue v = { type := detectType v, isBSON := false }) ∧
    (detectType v = none →
      getTypeDescriptorForValue v = { type := none, isBSON := false }) := by
  refine ⟨?_, ?_, ?_⟩
  · intro s h1 h2 h3
    simp [getTypeDescriptorForValue, h1, h2, jsTruthy, h3]
  · intro h
    rcases h with h | h
    · simp [getTypeDescriptorForValue, if_neg h, jsTruthy]
    · by_cases ht : detectType v = some "Object"
      · simp [getTypeDescriptorForValue, ht, h]
      · simp [getTypeDescriptorForValue, if_neg ht, jsTruthy]
  · intro h
    have : detectType v ≠ some "Object" := by simp [h]
    simp [getTypeDescriptorForValue, if_neg this, jsTruthy, h]

/-- Witness for C3: a driver `Long` instance (internal class Object,
truthy marker `"Long"`), a plain object without marker, and a Symbol-like
value outside the class table. -/
theorem C3_type_classifier_witness :
    (detectType (BValue.vLong 5) = some "Object" ∧
      bsontypeOf (BValue.vLong 5) = some "Long" ∧
      getTypeDescriptorForValue (BValue.vLong 5) =
        { type := some "Long", isBSON := true }) ∧
    getTypeDescriptorForValue (BValue.vString "x") =
      { type := some "String", isBSON := false } ∧
    getTypeDescriptorForValue (BValue.vOther "[object Symbol]") =
      { type := none, isBSON := false } := by
  refine ⟨⟨rfl, rfl, (C3_type_classifier (BValue.vLong 5)).1 "Long" rfl rfl (by decide)⟩,
          (C3_type_classifier (BValue.vString "x")).2.1 (Or.inl (by decide)),
          (C3_type_classifier (BValue.vOther "[object Symbol]")).2.2 rfl⟩

/-- C4: a value classified as BSON whose type tag has no formatter entry
makes the stringification callback fall through to the generic
structural stringifier; the table lookup of an unrecognized tag yields
`undefined` (`none`), never an exception. -/
theorem C4_unknown_tag_falls_through (uconv : List Nat → Option String)
    (gs : BValue → String) (v : BValue)
    (hB : (getTypeDescriptorForValue v).isBSON = true)
    (hNone : lookupFormatter uconv (getTypeDescriptorForValue v).type = none) :
    toJSStringCallback uconv gs v = gs v := by
  simp [toJSStringCallback, hNone]

/-- Witness for C4: an object carrying the unrecognized marker
`"FancyNewType"` is classified as BSON, finds no formatter, and is
rendered by the generic stringifier. -/
theorem C4_unknown_tag_falls_through_witness :
    (getTypeDescriptorForValue (BValue.vObject [] (some "FancyNewType"))).isBSON
        = true ∧
    lookupFormatter (fun _ => none)
        (getTypeDescriptorForValue (BValue.vObject [] (some "FancyNewType"))).type
        = none ∧
    toJSStringCallback (fun _ => none) (fun _ => "GENERIC")
        (BValue.vObject [] (some "FancyNewType")) = "GENERIC" :=
  ⟨rfl, rfl, C4_unknown_tag_falls_through _ _ _ rfl rfl⟩

/-- C5: a RegExp with none of global/ignoreCase/multiline set renders
`RegExp(<JSON-quoted source>)` with no second argument; otherwise the
second argument is the flags in the fixed order g, i, m. -/
theorem C5_regexp_formatter (source : String) (g ic ml : Bool) :
    (g = false → ic = false → ml = false →
      fmtRegExp (BValue.vRegExp source g ic ml) =
        "RegExp(" ++ jsonQuote source ++ ")") ∧
    ((g || ic || ml) = true →
      fmtRegExp (BValue.vRegExp source g ic ml) =
        "RegExp(" ++ jsonQuote source ++ ", '" ++
          ((if g then "g" else "") ++ (if ic then "i" else "") ++
            (if ml then "m" else "")) ++ "')") := by
  constructor
  · intro hg hi hm
    simp [fmtRegExp, hg, hi, hm]
  · intro h
    cases g <;> cases ic <;> cases ml <;> simp_all [fmtRegExp] <;>
      refine String.ext ?_ <;> simp

/-- Witness for C5: no flags gives no second argument; all three flags
give `'gim'` in order. -/
theorem C5_regexp_formatter_witness :
    fmtRegExp (BValue.vRegExp "^a.b$" false false false) =
      "RegExp(" ++ jsonQuote "^a.b$" ++ ")" ∧
    fmtRegExp (BValue.vRegExp "^a.b$" true true true) =
      "RegExp(" ++ jsonQuote "^a.b$" ++ ", '" ++
        ((if true then "g" else "") ++ (if true then "i" else "") ++
          (if true then "m" else "")) ++ "')" :=
  ⟨(C5_regexp_formatter "^a.b$" false false false).1 rfl rfl rfl,
   (C5_regexp_formatter "^a.b$" true true true).2 rfl⟩

/-- C6: an input matching the 24-hex-character pattern yields an
ObjectId constructed directly from it, independent of the general
parser; every other input yields exactly the general parser's result. -/
theorem C6_parseObjectId (p : String → Except String BValue) (s : String) :
    (isHex24 s = true → parseObjectId p s = Except.ok (BValue.vObjectId s)) ∧
    (isHex24 s = false → parseObjectId p s = p s) := by
  constructor <;> intro h <;> simp [parseObjectId, toBSON, h]

/-- Witness for C6: a 24-hex string bypasses the parser (whatever it
would return); a non-matching string is handed to it unmodified. -/
theorem C6_parseObjectId_witness :
    parseObjectId (fun _ => Except.ok BValue.vNull) "507f1f77bcf86cd799439011" =
      Except.ok (BValue.vObjectId "507f1f77bcf86cd799439011") ∧
    parseObjectId (fun _ => Except.ok BValue.vNull) "\x7b a: 1 \x7d" =
      Except.ok BValue.vNull :=
  ⟨(C6_parseObjectId _ _).1 (by decide), (C6_parseObjectId _ _).2 (by decide)⟩

/-! ### Whitespace post-processing helper lemmas (for C8) -/

theorem remNl_no_newline (l : List Char) : '\n' ∉ remNl l := by
  induction l using remNl.induct <;> simp_all [remNl, eq_comm]

theorem collapseRun_mem (ch : Char) (b : Bool) (l : List Char)
    (h : ch ∈ collapseRun b l) : ch ∈ l := by
  induction b, l using collapseRun.induct <;> simp_all [collapseRun] <;> tauto

theorem collapseRun_true_head (l : List Char) (t : List Char)
    (h : collapseRun true l = ' ' :: t) : False := by
  induction l generalizing t with
  | nil => simp [collapseRun] at h
  | cons x xs ih =>
    by_cases hx : x = ' '
    · subst hx
      exact ih t h
    · have he : collapseRun true (x :: xs) = x :: collapseRun false xs := by
        simp [collapseRun, hx]
      rw [he] at h
      injection h with h1 _
      exact hx h1

theorem noDoubleSpace_collapseRun (l : List Char) :
    ∀ b, noDoubleSpace (collapseRun b l) = true := by
  induction l with
  | nil => intro b; cases b <;> rfl
  | cons x xs ih =>
    intro b
    by_cases hx : x = ' '
    · subst hx
      cases b
      · have he : collapseRun false (' ' :: xs) = ' ' :: collapseRun true xs := rfl
        rw [he]
        cases hX : collapseRun true xs with
        | nil => rfl
        | cons y ys =>
          have hy : ¬ y = ' ' := fun hy => collapseRun_true_head xs ys (hy ▸ hX)
          have hred : noDoubleSpace (' ' :: y :: ys) = noDoubleSpace (y :: ys) := by
            simp [noDoubleSpace, hy]
          rw [hred]
          have hh := ih true
          rw [hX] at hh
          exact hh
      · exact ih true
    · have he : collapseRun b (x :: xs) = x :: collapseRun false xs := by
        cases b <;> simp [collapseRun, hx]
      rw [he]
      have hred : noDoubleSpace (x :: collapseRun false xs) =
          noDoubleSpace (collapseRun false xs) := by
        simp [noDoubleSpace, hx]
      rw [hred]
      exact ih false

theorem intToStr_one : intToStr 1 = "1" := by
  simp [intToStr, natToStr, natToDigits, digitChar]

/-- Concrete rendering of `{a: 1}` at indent 1, for the C8 analysis. -/
theorem toJSString_obj0 :
    toJSString (fun _ => none) (BValue.vObject [("a", BValue.vNumber 1)] none) 1 =
      "\x7b\n a: 1\n\x7d" := by
  have h0 : toJSString (fun _ => none)
      (BValue.vObject [("a", BValue.vNumber 1)] none) 1 =
      "\x7b\n" ++ (indentStr (1 * 1) ++ "a" ++ ": " ++ intToStr 1) ++ "\n" ++
        indentStr (1 * 0) ++ "\x7d" := rfl
  rw [h0, intToStr_one]
  decide

/-- C7: round-trip — for well-formed values of the representable leaf
types the claim names (Long, ObjectId, Int32), parsing the formatted
string back through the safe parser yields the original value.  The
external parser is the spec-modelled `parserModel`. -/
theorem C7_roundtrip (uconv : List Nat → Option String) (n m : Int)
    (h : String) (hh : isHex24 h = true) :
    (toSafeBSON parserModel (toJSString uconv (BValue.vLong n) 2)).1 =
      some (BValue.vLong n) ∧
    (toSafeBSON parserModel (toJSString uconv (BValue.vObjectId h) 2)).1 =
      some (BValue.vObjectId h) ∧
    (toSafeBSON parserModel (toJSString uconv (BValue.vInt32 m) 2)).1 =
      some (BValue.vInt32 m) := by
  refine ⟨?_, ?_, ?_⟩
  · rw [toJSString_vLong]
    simp [toSafeBSON, toBSON, parserModel_NumberLong n]
  · rw [toJSString_vObjectId]
    simp [toSafeBSON, toBSON, parserModel_ObjectId h hh]
  · rw [toJSString_vInt32]
    simp [toSafeBSON, toBSON, parserModel_NumberInt m]

/-- Witness for C7: a Long, a well-formed ObjectId and a negative Int32
round-trip at concrete inputs. -/
theorem C7_roundtrip_witness :
    isHex24 "507f1f77bcf86cd799439011" = true ∧
    (toSafeBSON parserModel
        (toJSString (fun _ => none) (BValue.vLong 123) 2)).1 =
      some (BValue.vLong 123) ∧
    (toSafeBSON parserModel
        (toJSString (fun _ => none) (BValue.vObjectId "507f1f77bcf86cd799439011") 2)).1 =
      some (BValue.vObjectId "507f1f77bcf86cd799439011") ∧
    (toSafeBSON parserModel
        (toJSString (fun _ => none) (BValue.vInt32 (-42)) 2)).1 =
      some (BValue.vInt32 (-42)) :=
  ⟨by decide,
   (C7_roundtrip (fun _ => none) 123 (-42) "507f1f77bcf86cd799439011" (by decide)).1,
   (C7_roundtrip (fun _ => none) 123 (-42) "507f1f77bcf86cd799439011" (by decide)).2.1,
   (C7_roundtrip (fun _ => none) 123 (-42) "507f1f77bcf86cd799439011" (by decide)).2.2⟩

/-- C10: an Object whose `_bsontype` attribute is absent or falsy (the
empty string) classifies as a plain Object with `isBSON = false`, and
the stringification callback renders it with the generic structural
stringifier, never a BSON formatter. -/
theorem C10_falsy_marker (uconv : List Nat → Option String)
    (fields : List (String × BValue)) (b : Option String)
    (h : b = none ∨ b = some "") :
    getTypeDescriptorForValue (BValue.vObject fields b) =
      { type := some "Object", isBSON := false } ∧
    (∀ gs : BValue → String,
      toJSStringCallback uconv gs (BValue.vObject fields b) =
        gs (BValue.vObject fields b)) := by
  have hd : detectType (BValue.vObject fields b) = some "Object" := rfl
  have htr : jsTruthy b = false := by rcases h with h | h <;> simp [h, jsTruthy]
  have hdesc : getTypeDescriptorForValue (BValue.vObject fields b) =
      { type := some "Object", isBSON := false } := by
    simp [getTypeDescriptorForValue, hd, bsontypeOf, htr]
  refine ⟨hdesc, fun gs => ?_⟩
  simp [toJSStringCallback, hdesc, lookupFormatter, BSON_TO_JS_STRING, List.lookup]

/-- Witness for C10: the empty plain object (no `_bsontype`) and an
object with the falsy marker `""`. -/
theorem C10_falsy_marker_witness :
    (getTypeDescriptorForValue (BValue.vObject [] none) =
        { type := some "Object", isBSON := false } ∧
      toJSStringCallback (fun _ => none) (fun _ => "GENERIC")
        (BValue.vObject [] none) = "GENERIC") ∧
    getTypeDescriptorForValue (BValue.vObject [("a", BValue.vNull)] (some "")) =
      { type := some "Object", isBSON := false } :=
  ⟨⟨(C10_falsy_marker (fun _ => none) [] none (Or.inl rfl)).1,
    (C10_falsy_marker (fun _ => none) [] none (Or.inl rfl)).2 _⟩,
   (C10_falsy_marker (fun _ => none) [("a", BValue.vNull)] (some "")
      (Or.inr rfl)).1⟩

/-- C8 counterexample: the claim says the deprecated `stringify`
collapses all generated whitespace and newlines of the 1-space-indent
rendering down to single spaces; for `{a: 1}` the rendering is
`"{\n a: 1\n}"`, the code produces `"{a: 1}"` (the newline groups are
deleted, leaving no space), while collapsing to single spaces would
produce `"{ a: 1 }"`. -/
theorem C8_stringify_counterexample :
    stringify (fun _ => none) (BValue.vObject [("a", BValue.vNumber 1)] none) ≠
      collapseWhitespaceAsSpec
        (toJSString (fun _ => none)
          (BValue.vObject [("a", BValue.vNumber 1)] none) 1) := by
  rw [stringify, toJSString_obj0]
  decide

/-- C8 amended: the deprecated `stringify` post-processes the
1-space-indent rendering by deleting each newline group (the newline
with an optional preceding space and up to two following spaces) and
collapsing the remaining runs of two or more spaces to a single space —
so its output never contains a newline or two adjacent spaces. -/
theorem C8_stringify_amended (uconv : List Nat → Option String) (obj : BValue) :
    '\n' ∉ (stringify uconv obj).data ∧
    noDoubleSpace (stringify uconv obj).data = true := by
  constructor
  · intro hmem
    have h1 : '\n' ∈ collapseRun false (remNl (toJSString uconv obj 1).data) :=
      hmem
    exact remNl_no_newline _ (collapseRun_mem '\n' false _ h1)
  · exact noDoubleSpace_collapseRun _ false

/-- C9 counterexample: the claim says no exported operation ever raises,
including `parseObjectId`; but `parseObjectId` hands any input that does
not match the 24-hex pattern to the external parser unguarded, so the
parser's exception propagates to the caller. -/
theorem C9_counterexample :
    parseObjectId (fun _ => Except.error "SyntaxError: Unexpected token")
        "\x7b not: valid" =
      Except.error "SyntaxError: Unexpected token" := rfl

/-- C9 amended: the stringification entry points are total functions to
strings and `toSafeBSON` converts every parser exception to `null` plus
a logged error; but `toBSON` is the raw parser and `parseObjectId`
raises exactly when its input does not match the 24-hex pattern and the
parser throws on it (matching inputs always return an ObjectId). -/
theorem C9_amended (p : String → Except String BValue) (s : String) :
    (∀ e, parseObjectId p s = Except.error e →
      isHex24 s = false ∧ p s = Except.error e) ∧
    (isHex24 s = true → parseObjectId p s = Except.ok (BValue.vObjectId s)) ∧
    (∀ e, p s = Except.error e → toSafeBSON p s = (none, [e])) := by
  refine ⟨?_, ?_, ?_⟩
  · intro e he
    by_cases h : isHex24 s
    · rw [parseObjectId, if_pos h] at he
      exact absurd he (by simp)
    · refine ⟨by simpa using h, ?_⟩
      rw [parseObjectId, if_neg h] at he
      exact he
  · intro h
    simp [parseObjectId, h]
  · intro e he
    simp [toSafeBSON, toBSON, he]

/-- Witness for the amended C9: a throwing parser's error passes through
`parseObjectId` only on the non-matching input, a 24-hex input returns
the ObjectId even under a throwing parser, and `toSafeBSON` converts the
same error to `null` plus the log. -/
theorem C9_amended_witness :
    (isHex24 "\x7b not: valid" = false ∧
      (fun _ : String => (Except.error "E" : Except String BValue))
          "\x7b not: valid" =
        Except.error "E") ∧
    parseObjectId (fun _ => (Except.error "E" : Except String BValue))
        "507f1f77bcf86cd799439011" =
      Except.ok (BValue.vObjectId "507f1f77bcf86cd799439011") ∧
    toSafeBSON (fun _ => (Except.error "E" : Except String BValue)) "x" =
      (none, ["E"]) :=
  ⟨(C9_amended (fun _ => (Except.error "E" : Except String BValue))
      "\x7b not: valid").1 "E" rfl,
   (C9_amended (fun _ => (Except.error "E" : Except String BValue))
      "507f1f77bcf86cd799439011").2.1 (by decide),
   (C9_amended (fun _ => (Except.error "E" : Except String BValue))
      "x").2.2 "E" rfl⟩

end MongoExpressBson
